import Mathlib

set_option maxHeartbeats 1000000

/-- Single-quote character (code point 39). -/
def squote : Char := Char.ofNat 39

/-- Single-quote as a one-character string. -/
def sqs : String := String.singleton squote

/-- Backtick as a one-character string (code point 96). -/
def bq : String := String.singleton (Char.ofNat 96)

/-- Python `", ".join(parts)`. -/
def joinComma (parts : List String) : String := String.intercalate ", " parts

/-- Python `" AND ".join(parts)`. -/
def joinAnd (parts : List String) : String := String.intercalate " AND " parts

/-- Python `str` of a list of strings: single-quoted items, comma-separated, bracketed. -/
def pyListRepr (xs : List String) : String :=
  "[" ++ joinComma (xs.map (fun x => sqs ++ x ++ sqs)) ++ "]"

/-- The Python exception kinds raised by bigquery_service.py / observed by main.py. -/
inductive PyErr where
  | valueError (msg : String)
  | runtimeError (msg : String)
  | typeError (msg : String)
  | keyError (key : String)
deriving DecidableEq

/-- Python `str(e)` for each exception kind (`str` of a KeyError is the quoted key). -/
def PyErr.str : PyErr → String
  | .valueError m => m
  | .runtimeError m => m
  | .typeError m => m
  | .keyError k => sqs ++ k ++ sqs

/-- One schema field, bigquery_service.py:99: `{"name": ..., "type": ...}`. -/
structure Column where
  name : String
  type : String
deriving DecidableEq

/-- A result row materialized as a field-name-to-value mapping (bigquery_service.py:223). -/
abbrev Row := List (String × String)

/-- The external BigQuery collaborator: table listing, per-table schema fetch
    (`none` = fetch failure), and query execution (`.error` = warehouse-side failure,
    carrying the collaborator's error text). -/
structure Env where
  datasetTables : Option (List String)
  schemas : String → Option (List Column)
  execute : String → Except String (List Row)

/-- bigquery_service.py:12. -/
def PROJECT_ID : String := "services-pro-368012"

/-- bigquery_service.py:14. -/
def DATASET_ID : String := "pro_services_us_dwh"

/-- bigquery_service.py:15-30, the explicit allow-list. -/
def ALLOWED_TABLES : List String :=
  ["fact_userinfo", "fact_catalogue", "fact_epg", "fact_playbackactivity",
   "fact_useractivity", "fact_userbillingactivity", "fact_registereduser",
   "fact_qoe", "fact_events", "fact_ga_events", "favorites_2_brandid",
   "fact_addon_session_playbackactivity", "fact_playbackseriesactivity",
   "fact_digital_marketing_performance"]

/-- The pydantic model of main.py:31-33. -/
structure AggregationRequest where
  column : String
  function : String
deriving DecidableEq

/-- An aggregation item as seen by the service layer: either a Python dict
    (the type bigquery_service.py documents: `{column: str, function: str}`)
    or a typed pydantic AggregationRequest object (what main.py actually passes). -/
inductive AggItem where
  | dict (entries : List (String × String))
  | model (a : AggregationRequest)
deriving DecidableEq

/-- Python subscription `agg[key]`: a dict looks the key up (KeyError when absent);
    a pydantic model object is not subscriptable and raises TypeError. -/
def aggGetItem : AggItem → String → Except PyErr String
  | .dict es, k =>
    match es.lookup k with
    | some v => .ok v
    | none => .error (.keyError k)
  | .model _, _ =>
    .error (.typeError (sqs ++ "AggregationRequest" ++ sqs ++ " object is not subscriptable"))

/-- Python str.upper() (ASCII case mapping), written on the character list so it
    evaluates by kernel reduction; agrees with the library toUpper. -/
def pyUpper (s : String) : String := String.mk (s.data.map Char.toUpper)

/-- Python truthiness of an optional string: None and the empty string are falsy. -/
def strTruthy : Option String → Bool
  | none => false
  | some s => !s.isEmpty

/-- Python truthiness of an optional list (or dict rendered as a pair list):
    None and the empty collection are falsy. -/
def optListTruthy {α : Type} : Option (List α) → Bool
  | none => false
  | some l => !l.isEmpty

/-- bigquery_service.py:51-64, get_all_tables_from_dataset. -/
def get_all_tables_from_dataset (env : Env) : Except PyErr (List String) :=
  match env.datasetTables with
  | some ts => .ok ts
  | none => .error (.runtimeError
      ("No se pudieron obtener las tablas del dataset " ++ sqs ++ DATASET_ID ++ sqs ++
       ". Verifica que las credenciales tienen permisos."))

/-- bigquery_service.py:66-73, get_effective_allowed_tables. -/
def get_effective_allowed_tables (env : Env) : Except PyErr (List String) :=
  if ALLOWED_TABLES = ["ALL"] then get_all_tables_from_dataset env else .ok ALLOWED_TABLES

/-- bigquery_service.py:89 error message. -/
def msgNotAllowed (table_id : String) : String :=
  "La tabla " ++ sqs ++ table_id ++ sqs ++
  " no está permitida o no existe en la lista de tablas autorizadas."

/-- bigquery_service.py:103 error message. -/
def msgSchemaUnavailable (table_id : String) : String :=
  "No se pudo obtener el esquema para la tabla " ++ sqs ++ table_id ++ sqs ++
  ". Verifica que la tabla existe en el dataset " ++ sqs ++ DATASET_ID ++ sqs ++
  " y que las credenciales tienen permisos."

/-- bigquery_service.py:113 error message. -/
def msgEmpty : String := "Debes especificar columnas o agregaciones."

/-- bigquery_service.py:129 error message. -/
def msgUnknownColumn (col table_id : String) (names : List String) : String :=
  "La columna " ++ sqs ++ col ++ sqs ++ " no existe en la tabla " ++ sqs ++ table_id ++ sqs ++
  ". Columnas disponibles: " ++ pyListRepr names

/-- bigquery_service.py:133 error message. -/
def msgUnknownAggColumn (col table_id : String) : String :=
  "La columna de agregación " ++ sqs ++ col ++ sqs ++ " no existe en la tabla " ++ sqs ++
  table_id ++ sqs ++ "."

/-- bigquery_service.py:136 error message. -/
def msgOrderByKeys : String :=
  "El parámetro order_by debe tener " ++ sqs ++ "column" ++ sqs ++ " y " ++ sqs ++
  "direction" ++ sqs ++ "."

/-- bigquery_service.py:138 error message. -/
def msgUnknownOrderColumn (col table_id : String) : String :=
  "La columna de ordenamiento " ++ sqs ++ col ++ sqs ++ " no existe en la tabla " ++ sqs ++
  table_id ++ sqs ++ "."

/-- bigquery_service.py:140 error message. -/
def msgBadDirection : String :=
  "La dirección de ordenamiento debe ser " ++ sqs ++ "ASC" ++ sqs ++ " o " ++ sqs ++
  "DESC" ++ sqs ++ "."

/-- bigquery_service.py:142 wrapping message (the `except Exception` around validation). -/
def msgWrapValidation (table_id inner : String) : String :=
  "No se pudo validar el esquema para la tabla " ++ sqs ++ table_id ++ sqs ++
  " antes de la consulta: " ++ inner

/-- bigquery_service.py:227 wrapping message for execution failures. -/
def msgExecFailed (table_id detail : String) : String :=
  "Error al obtener datos de la tabla " ++ sqs ++ table_id ++ sqs ++ ". Detalles: " ++ detail

/-- bigquery_service.py:82-103, get_table_schema (allow-list re-check, then fetch). -/
def get_table_schema (env : Env) (table_id : String) : Except PyErr (List Column) :=
  match get_effective_allowed_tables env with
  | .error e => .error e
  | .ok eff =>
    if eff.contains table_id then
      match env.schemas table_id with
      | some sch => .ok sch
      | none => .error (.runtimeError (msgSchemaUnavailable table_id))
    else .error (.valueError (msgNotAllowed table_id))

/-- bigquery_service.py:126-129: the per-column existence loop. -/
def checkColumns (names : List String) (table_id : String) : List String → Except PyErr Unit
  | [] => .ok ()
  | c :: rest =>
    if names.contains c then checkColumns names table_id rest
    else .error (.valueError (msgUnknownColumn c table_id names))

/-- bigquery_service.py:131-133: the per-aggregation loop; `agg["column"]` itself may raise. -/
def checkAggs (names : List String) (table_id : String) : List AggItem → Except PyErr Unit
  | [] => .ok ()
  | a :: rest =>
    match aggGetItem a "column" with
    | .error e => .error e
    | .ok c =>
      if names.contains c then checkAggs names table_id rest
      else .error (.valueError (msgUnknownAggColumn c table_id))

/-- bigquery_service.py:130: the loop is guarded by `if aggregations:` (truthiness). -/
def checkAggsOpt (names : List String) (table_id : String) :
    Option (List AggItem) → Except PyErr Unit
  | none => .ok ()
  | some al => if al.isEmpty then .ok () else checkAggs names table_id al

/-- bigquery_service.py:134-140: the order_by structural and column checks,
    guarded by `if order_by:` (truthiness of the dict). -/
def checkOrderBy (names : List String) (table_id : String)
    (order_by : Option (List (String × String))) : Except PyErr Unit :=
  if optListTruthy order_by then
    match order_by with
    | none => .ok ()
    | some es =>
      match es.lookup "column", es.lookup "direction" with
      | some c, some d =>
        if names.contains c then
          if (["ASC", "DESC"] : List String).contains (pyUpper d) then .ok ()
          else .error (.valueError msgBadDirection)
        else .error (.valueError (msgUnknownOrderColumn c table_id))
      | _, _ => .error (.valueError msgOrderByKeys)
  else .ok ()

/-- bigquery_service.py:123-140: the body of the `try` block (schema fetch, then the
    column / aggregation / order_by checks, in that order). -/
def validate_schema_block (env : Env) (table_id : String) (columns : List String)
    (aggregations : Option (List AggItem)) (order_by : Option (List (String × String))) :
    Except PyErr Unit :=
  match get_table_schema env table_id with
  | .error e => .error e
  | .ok table_schema =>
    let schema_column_names := table_schema.map (fun f => f.name)
    match checkColumns schema_column_names table_id columns with
    | .error e => .error e
    | .ok _ =>
      match checkAggsOpt schema_column_names table_id aggregations with
      | .error e => .error e
      | .ok _ => checkOrderBy schema_column_names table_id order_by

/-- bigquery_service.py:141-142: `except Exception as e` re-raises every failure of the
    block above as a RuntimeError wrapping `str(e)`. -/
def validate_schema (env : Env) (table_id : String) (columns : List String)
    (aggregations : Option (List AggItem)) (order_by : Option (List (String × String))) :
    Except PyErr Unit :=
  match validate_schema_block env table_id columns aggregations order_by with
  | .ok _ => .ok ()
  | .error e => .error (.runtimeError (msgWrapValidation table_id (PyErr.str e)))

/-- Character-level semantics of bigquery_service.py:191,
    `brand_id.replace(squote, two squotes)`: each single quote becomes two,
    every other character is kept unchanged. -/
def doubleQuotes : List Char → List Char
  | [] => []
  | c :: cs => if c = squote then squote :: squote :: doubleQuotes cs else c :: doubleQuotes cs

/-- bigquery_service.py:191, the sanitized brand_id literal. -/
def sanitize_brand_id (s : String) : String := String.mk (doubleQuotes s.data)

/-- bigquery_service.py:190-192: the brandid filter, guarded by truthiness of brand_id. -/
def brandClause : Option String → List String
  | none => []
  | some b => if b.isEmpty then [] else ["brandid = " ++ sqs ++ sanitize_brand_id b ++ sqs]

/-- bigquery_service.py:193-194. -/
def startClause : Option String → List String
  | none => []
  | some d => if d.isEmpty then [] else ["daydate >= " ++ sqs ++ d ++ sqs]

/-- bigquery_service.py:195-196. -/
def endClause : Option String → List String
  | none => []
  | some d => if d.isEmpty then [] else ["daydate <= " ++ sqs ++ d ++ sqs]

/-- bigquery_service.py:200-201. -/
def groupByClause : Option (List String) → String
  | none => ""
  | some l => if l.isEmpty then "" else " GROUP BY " ++ joinComma l

/-- bigquery_service.py:203-204: subscriptions may raise KeyError on a partial dict. -/
def orderByClause (order_by : Option (List (String × String))) : Except PyErr String :=
  if optListTruthy order_by then
    match order_by with
    | none => .ok ""
    | some es =>
      match es.lookup "column" with
      | none => .error (.keyError "column")
      | some c =>
        match es.lookup "direction" with
        | none => .error (.keyError "direction")
        | some d => .ok (" ORDER BY " ++ c ++ " " ++ pyUpper d)
  else .ok ""

/-- bigquery_service.py:206-207: `if limit is not None` (not truthiness). -/
def limitClause : Option Int → String
  | none => ""
  | some n => " LIMIT " ++ toString n

/-- bigquery_service.py:172-178: one `FUNC(col) AS col` item per aggregation, in order;
    the subscriptions (`function` first, then `column`) may raise. -/
def renderAggs : List AggItem → Except PyErr (List String)
  | [] => .ok []
  | a :: rest =>
    match aggGetItem a "function" with
    | .error e => .error e
    | .ok func =>
      match aggGetItem a "column" with
      | .error e => .error e
      | .ok col =>
        match renderAggs rest with
        | .error e => .error e
        | .ok rs => .ok ((pyUpper func ++ "(" ++ col ++ ") AS " ++ col) :: rs)

/-- bigquery_service.py:144-184: the SELECT projection list. With truthy group_by,
    keep exactly the requested columns that occur in group_by (others dropped, the
    else-branches only print warnings); otherwise, with truthy aggregations, keep no
    plain column; otherwise keep all requested columns. Aggregation items follow. -/
def buildSelectParts (columns : List String) (aggregations : Option (List AggItem))
    (group_by : Option (List String)) : Except PyErr (List String) :=
  let base : List String :=
    if optListTruthy group_by then
      columns.filter (fun c => (group_by.getD []).contains c)
    else if optListTruthy aggregations then []
    else columns
  match (if optListTruthy aggregations then renderAggs (aggregations.getD []) else .ok []) with
  | .error e => .error e
  | .ok aggParts => .ok (base ++ aggParts)

/-- bigquery_service.py:120: the fully-qualified table reference
    (client.project is the fixed PROJECT_ID). -/
def tableRef (table_id : String) : String := PROJECT_ID ++ "." ++ DATASET_ID ++ "." ++ table_id

/-- bigquery_service.py:112-207: get_data_from_table up to (excluding) execution —
    validation in source order (emptiness, allow-list, wrapped schema block) followed
    by compilation of the query text (SELECT, FROM, WHERE, GROUP BY, ORDER BY, LIMIT). -/
def get_data_from_table_query (env : Env) (table_id : String) (columns : List String)
    (limit : Option Int) (brand_id start_date end_date : Option String)
    (aggregations : Option (List AggItem)) (group_by : Option (List String))
    (order_by : Option (List (String × String))) : Except PyErr String :=
  if columns.isEmpty && !(optListTruthy aggregations) then .error (.valueError msgEmpty)
  else
    match get_effective_allowed_tables env with
    | .error e => .error e
    | .ok eff =>
      if eff.contains table_id then
        match validate_schema env table_id columns aggregations order_by with
        | .error e => .error e
        | .ok _ =>
          match buildSelectParts columns aggregations group_by with
          | .error e => .error e
          | .ok select_parts =>
            let q1 := "SELECT " ++ joinComma select_parts ++ " FROM " ++ bq ++
                      tableRef table_id ++ bq
            let wcs := brandClause brand_id ++ startClause start_date ++ endClause end_date
            let q2 := if wcs.isEmpty then q1 else q1 ++ " WHERE " ++ joinAnd wcs
            let q3 := q2 ++ groupByClause group_by
            match orderByClause order_by with
            | .error e => .error e
            | .ok ob => .ok (q3 ++ ob ++ limitClause limit)
      else .error (.valueError (msgNotAllowed table_id))

/-- bigquery_service.py:105-227, get_data_from_table: compile, then execute
    (bigquery_service.py:209-227; execution failures become RuntimeError). -/
def get_data_from_table (env : Env) (table_id : String) (columns : List String)
    (limit : Option Int) (brand_id start_date end_date : Option String)
    (aggregations : Option (List AggItem)) (group_by : Option (List String))
    (order_by : Option (List (String × String))) : Except PyErr (List Row) :=
  match get_data_from_table_query env table_id columns limit brand_id start_date end_date
      aggregations group_by order_by with
  | .error e => .error e
  | .ok query =>
    match env.execute query with
    | .ok rows => .ok rows
    | .error detail => .error (.runtimeError (msgExecFailed table_id detail))

/-- main.py:35-44, TableDataQueryRequest. The pydantic model has NO order_by field
    (main.py:44 notes it as a possible future addition). -/
structure TableDataQueryRequest where
  table_name : String
  columns : List String
  limit : Option Int := none
  brand_id : Option String := none
  start_date : Option String := none
  end_date : Option String := none
  aggregations : Option (List AggregationRequest) := none
  group_by : Option (List String) := none
deriving DecidableEq

/-- The HTTP outcome of the query-data endpoint: success payload, or an
    HTTPException with status code and detail. -/
inductive HttpOutcome where
  | success (data : List Row)
  | failure (status : Nat) (detail : String)
deriving DecidableEq

/-- main.py:96-121, the POST /query-data handler: passes the typed aggregation
    objects through, passes NO order_by, and maps ValueError to 400, RuntimeError
    to 500, any other exception to a generic 500. -/
def query_bigquery_table_data (env : Env) (r : TableDataQueryRequest) : HttpOutcome :=
  match get_data_from_table env r.table_name r.columns r.limit r.brand_id r.start_date
      r.end_date (r.aggregations.map (fun l => l.map AggItem.model)) r.group_by none with
  | .ok rows => .success rows
  | .error (.valueError m) => .failure 400 m
  | .error (.runtimeError m) => .failure 500 m
  | .error _ => .failure 500 "Error interno del servidor al consultar datos de la tabla."

/-- The query text compiled by the service call the endpoint makes (main.py:101-110):
    same arguments as the handler passes, order_by fixed to none. -/
def handler_query (env : Env) (r : TableDataQueryRequest) : Except PyErr String :=
  get_data_from_table_query env r.table_name r.columns r.limit r.brand_id r.start_date
    r.end_date (r.aggregations.map (fun l => l.map AggItem.model)) r.group_by none

/-- A dict aggregation item with exactly the documented keys. -/
def mkAggDict (p : String × String) : AggItem := .dict [("column", p.1), ("function", p.2)]

/-- An order_by dict with exactly the documented keys. -/
def obDict : Option (String × String) → Option (List (String × String))
  | none => none
  | some p => some [("column", p.1), ("direction", p.2)]

/-- ALLOWED_TABLES is a literal list, so the wildcard branch is never taken. -/
theorem eff_ok (env : Env) : get_effective_allowed_tables env = .ok ALLOWED_TABLES := by
  unfold get_effective_allowed_tables
  rw [if_neg (by decide)]

/-- Schema fetch succeeds for an allowed table the warehouse knows. -/
theorem get_table_schema_ok (env : Env) (t : String) (sch : List Column)
    (ht : ALLOWED_TABLES.contains t = true) (hs : env.schemas t = some sch) :
    get_table_schema env t = .ok sch := by
  unfold get_table_schema
  rw [eff_ok]
  have ht' : t ∈ ALLOWED_TABLES := by simpa using ht
  simp [ht', hs]

/-- The column loop accepts when every requested column is in the schema. -/
theorem checkColumns_ok (names : List String) (t : String) (cols : List String)
    (h : ∀ c ∈ cols, names.contains c = true) :
    checkColumns names t cols = .ok () := by
  induction cols with
  | nil => rfl
  | cons c rest ih =>
    unfold checkColumns
    rw [h c (List.mem_cons_self c rest), if_pos rfl]
    exact ih (fun x hx => h x (List.mem_cons_of_mem c hx))

/-- The column loop reports the first unknown column. -/
theorem checkColumns_err (names : List String) (t : String) (cs1 : List String) (c : String)
    (cs2 : List String) (h1 : ∀ x ∈ cs1, names.contains x = true)
    (h2 : names.contains c = false) :
    checkColumns names t (cs1 ++ c :: cs2) =
      .error (.valueError (msgUnknownColumn c t names)) := by
  induction cs1 with
  | nil =>
    simp only [List.nil_append]
    unfold checkColumns
    rw [h2]
    simp
  | cons x rest ih =>
    simp only [List.cons_append]
    unfold checkColumns
    rw [h1 x (List.mem_cons_self x rest), if_pos rfl]
    exact ih (fun y hy => h1 y (List.mem_cons_of_mem x hy))

/-- The aggregation loop accepts well-keyed dicts over schema columns. -/
theorem checkAggs_dict_ok (names : List String) (t : String) (pairs : List (String × String))
    (ha : ∀ p ∈ pairs, names.contains p.1 = true) :
    checkAggs names t (pairs.map mkAggDict) = .ok () := by
  induction pairs with
  | nil => rfl
  | cons p ps ih =>
    simp only [List.map_cons]
    unfold checkAggs
    have hg : aggGetItem (mkAggDict p) "column" = .ok p.1 := rfl
    rw [hg]
    simp only [ha p (List.mem_cons_self p ps), if_pos rfl]
    exact ih (fun q hq => ha q (List.mem_cons_of_mem p hq))

/-- Truthiness-guarded variant of the aggregation check. -/
theorem checkAggsOpt_dict_ok (names : List String) (t : String) (pairs : List (String × String))
    (ha : ∀ p ∈ pairs, names.contains p.1 = true) :
    checkAggsOpt names t (some (pairs.map mkAggDict)) = .ok () := by
  cases pairs with
  | nil => rfl
  | cons p ps =>
    unfold checkAggsOpt
    simp only [List.map_cons, List.isEmpty_cons, if_neg]
    exact checkAggs_dict_ok names t (p :: ps) ha

/-- The order_by check accepts a well-keyed dict with a schema column and a valid direction. -/
theorem checkOrderBy_obDict_ok (names : List String) (t : String)
    (obp : Option (String × String))
    (hob : ∀ c d, obp = some (c, d) → names.contains c = true ∧
        ((["ASC", "DESC"] : List String).contains (pyUpper d) = true)) :
    checkOrderBy names t (obDict obp) = .ok () := by
  cases obp with
  | none => rfl
  | some p =>
    obtain ⟨hc, hd⟩ := hob p.1 p.2 (by rfl)
    unfold checkOrderBy obDict
    have hl1 : ([("column", p.1), ("direction", p.2)] : List (String × String)).lookup "column"
        = some p.1 := rfl
    have hl2 : ([("column", p.1), ("direction", p.2)] : List (String × String)).lookup "direction"
        = some p.2 := rfl
    simp only [optListTruthy, List.isEmpty_cons, Bool.not_false, if_pos, hl1, hl2, hc, hd]

/-- The validation block succeeds on a valid request (dict aggregations, two-key order_by). -/
theorem validate_schema_block_ok (env : Env) (t : String) (sch : List Column)
    (cols : List String) (pairs : List (String × String)) (obp : Option (String × String))
    (ht : ALLOWED_TABLES.contains t = true) (hs : env.schemas t = some sch)
    (hc : ∀ c ∈ cols, (sch.map (fun f => f.name)).contains c = true)
    (ha : ∀ p ∈ pairs, (sch.map (fun f => f.name)).contains p.1 = true)
    (hob : ∀ c d, obp = some (c, d) → (sch.map (fun f => f.name)).contains c = true ∧
        ((["ASC", "DESC"] : List String).contains (pyUpper d) = true)) :
    validate_schema_block env t cols (some (pairs.map mkAggDict)) (obDict obp) = .ok () := by
  unfold validate_schema_block
  rw [get_table_schema_ok env t sch ht hs]
  simp only [checkColumns_ok _ _ _ hc, checkAggsOpt_dict_ok _ _ _ ha,
    checkOrderBy_obDict_ok _ _ _ hob]

/-- The wrapped validation succeeds on a valid request. -/
theorem validate_schema_ok (env : Env) (t : String) (sch : List Column)
    (cols : List String) (pairs : List (String × String)) (obp : Option (String × String))
    (ht : ALLOWED_TABLES.contains t = true) (hs : env.schemas t = some sch)
    (hc : ∀ c ∈ cols, (sch.map (fun f => f.name)).contains c = true)
    (ha : ∀ p ∈ pairs, (sch.map (fun f => f.name)).contains p.1 = true)
    (hob : ∀ c d, obp = some (c, d) → (sch.map (fun f => f.name)).contains c = true ∧
        ((["ASC", "DESC"] : List String).contains (pyUpper d) = true)) :
    validate_schema env t cols (some (pairs.map mkAggDict)) (obDict obp) = .ok () := by
  unfold validate_schema
  rw [validate_schema_block_ok env t sch cols pairs obp ht hs hc ha hob]

/-- Rendering of dict aggregation items. -/
theorem renderAggs_dict (pairs : List (String × String)) :
    renderAggs (pairs.map mkAggDict) =
      .ok (pairs.map (fun p => pyUpper p.2 ++ "(" ++ p.1 ++ ") AS " ++ p.1)) := by
  induction pairs with
  | nil => rfl
  | cons p ps ih =>
    simp only [List.map_cons]
    unfold renderAggs
    have h1 : aggGetItem (mkAggDict p) "function" = .ok p.2 := rfl
    have h2 : aggGetItem (mkAggDict p) "column" = .ok p.1 := rfl
    rw [h1, h2, ih]

/-- Mapping preserves list emptiness. -/
theorem isEmpty_map {α β : Type} (f : α → β) (l : List α) : (l.map f).isEmpty = l.isEmpty := by
  cases l <;> rfl

/-- The projection builder on dict aggregation items. -/
theorem buildSelectParts_dict (cols : List String) (pairs : List (String × String))
    (gb : Option (List String)) :
    buildSelectParts cols (some (pairs.map mkAggDict)) gb =
      .ok ((if optListTruthy gb then cols.filter (fun c => (gb.getD []).contains c)
            else if !pairs.isEmpty then [] else cols) ++
           pairs.map (fun p => pyUpper p.2 ++ "(" ++ p.1 ++ ") AS " ++ p.1)) := by
  unfold buildSelectParts
  simp only [optListTruthy, Option.getD_some, isEmpty_map]
  cases pairs with
  | nil => simp [renderAggs]
  | cons p ps =>
    have hr := renderAggs_dict (p :: ps)
    simp only [List.map_cons] at hr
    simp [hr]

/-- Emptiness of the brand filter matches falsiness of brand_id. -/
theorem brandClause_isEmpty (bid : Option String) :
    (brandClause bid).isEmpty = !strTruthy bid := by
  cases bid with
  | none => rfl
  | some b =>
    simp only [brandClause, strTruthy, Bool.not_not]
    cases hb : b.isEmpty <;> simp [hb]

/-- Emptiness of the lower date bound matches falsiness of start_date. -/
theorem startClause_isEmpty (sd : Option String) :
    (startClause sd).isEmpty = !strTruthy sd := by
  cases sd with
  | none => rfl
  | some d =>
    simp only [startClause, strTruthy, Bool.not_not]
    cases hd : d.isEmpty <;> simp [hd]

/-- Emptiness of the upper date bound matches falsiness of end_date. -/
theorem endClause_isEmpty (ed : Option String) :
    (endClause ed).isEmpty = !strTruthy ed := by
  cases ed with
  | none => rfl
  | some d =>
    simp only [endClause, strTruthy, Bool.not_not]
    cases hd : d.isEmpty <;> simp [hd]

/-- List append emptiness. -/
theorem isEmpty_append {α : Type} (l l' : List α) :
    (l ++ l').isEmpty = (l.isEmpty && l'.isEmpty) := by
  cases l <;> cases l' <;> rfl

/-- The WHERE clause list is empty exactly when all three filter sources are falsy. -/
theorem wcs_isEmpty (bid sd ed : Option String) :
    (brandClause bid ++ startClause sd ++ endClause ed).isEmpty =
      !(strTruthy bid || strTruthy sd || strTruthy ed) := by
  rw [isEmpty_append, isEmpty_append, brandClause_isEmpty, startClause_isEmpty,
    endClause_isEmpty]
  cases strTruthy bid <;> cases strTruthy sd <;> cases strTruthy ed <;> rfl

/-- The conditional WHERE concatenation rewritten as an appended optional segment. -/
theorem whereSegment (q1 : String) (bid sd ed : Option String) :
    (if (brandClause bid ++ startClause sd ++ endClause ed).isEmpty then q1
     else q1 ++ " WHERE " ++ joinAnd (brandClause bid ++ startClause sd ++ endClause ed)) =
    q1 ++ (if strTruthy bid || strTruthy sd || strTruthy ed
           then " WHERE " ++ joinAnd (brandClause bid ++ startClause sd ++ endClause ed)
           else "") := by
  rw [wcs_isEmpty]
  cases h : (strTruthy bid || strTruthy sd || strTruthy ed) with
  | true => simp [String.append_assoc]
  | false => simp [String.append_empty]

/-- The GROUP BY clause as an appended optional segment. -/
theorem groupBySegment (gb : Option (List String)) :
    groupByClause gb =
      (if optListTruthy gb then " GROUP BY " ++ joinComma (gb.getD []) else "") := by
  cases gb with
  | none => rfl
  | some l =>
    simp only [groupByClause, optListTruthy, Option.getD_some]
    cases hl : l.isEmpty <;> simp [hl]

/-- The ORDER BY clause on a two-key dict. -/
theorem orderByClause_obDict (obp : Option (String × String)) :
    orderByClause (obDict obp) =
      .ok (match obp with
           | none => ""
           | some p => " ORDER BY " ++ p.1 ++ " " ++ pyUpper p.2) := by
  cases obp with
  | none => rfl
  | some p => rfl

/-- The claim-shaped compiled query: SELECT and FROM always, then WHERE, GROUP BY,
    ORDER BY and LIMIT as optional appended segments guarded by their source fields
    (truthiness for the filters and group_by, presence for order_by and limit). -/
def expectedQuery (table_id : String) (cols : List String) (pairs : List (String × String))
    (gb : Option (List String)) (bid sd ed : Option String)
    (obp : Option (String × String)) (lim : Option Int) : String :=
  "SELECT " ++
    joinComma ((if optListTruthy gb then cols.filter (fun c => (gb.getD []).contains c)
                else if !pairs.isEmpty then [] else cols) ++
               pairs.map (fun p => pyUpper p.2 ++ "(" ++ p.1 ++ ") AS " ++ p.1)) ++
  " FROM " ++ bq ++ tableRef table_id ++ bq ++
  (if strTruthy bid || strTruthy sd || strTruthy ed
   then " WHERE " ++ joinAnd (brandClause bid ++ startClause sd ++ endClause ed) else "") ++
  (if optListTruthy gb then " GROUP BY " ++ joinComma (gb.getD []) else "") ++
  (match obp with | none => "" | some p => " ORDER BY " ++ p.1 ++ " " ++ pyUpper p.2) ++
  (match lim with | none => "" | some n => " LIMIT " ++ toString n)

/-- Workhorse: a request that passes validation compiles to the claim-shaped query. -/
theorem query_shape (env : Env) (t : String) (sch : List Column) (cols : List String)
    (pairs : List (String × String)) (gb : Option (List String)) (bid sd ed : Option String)
    (obp : Option (String × String)) (lim : Option Int)
    (hproj : (cols.isEmpty && pairs.isEmpty) = false)
    (ht : ALLOWED_TABLES.contains t = true)
    (hs : env.schemas t = some sch)
    (hc : ∀ c ∈ cols, (sch.map (fun f => f.name)).contains c = true)
    (ha : ∀ p ∈ pairs, (sch.map (fun f => f.name)).contains p.1 = true)
    (hob : ∀ c d, obp = some (c, d) → (sch.map (fun f => f.name)).contains c = true ∧
        ((["ASC", "DESC"] : List String).contains (pyUpper d) = true)) :
    get_data_from_table_query env t cols lim bid sd ed (some (pairs.map mkAggDict)) gb
      (obDict obp) = .ok (expectedQuery t cols pairs gb bid sd ed obp lim) := by
  have hcond : (cols.isEmpty && !(optListTruthy (some (pairs.map mkAggDict)))) = false := by
    simp only [optListTruthy, isEmpty_map, Bool.not_not]
    exact hproj
  unfold get_data_from_table_query
  rw [if_neg (by simp [hcond]), eff_ok]
  simp only [ht, if_pos, validate_schema_ok env t sch cols pairs obp ht hs hc ha hob,
    buildSelectParts_dict, whereSegment, groupBySegment, orderByClause_obDict]
  rw [expectedQuery.eq_def]
  cases lim <;> rfl

/-- The TypeError message for subscripting a pydantic model. -/
def msgNotSubscriptable : String :=
  sqs ++ "AggregationRequest" ++ sqs ++ " object is not subscriptable"

/-- Absent aggregations behave exactly like an empty aggregation list. -/
theorem query_aggs_none (env : Env) (t : String) (cols : List String) (lim : Option Int)
    (bid sd ed : Option String) (gb : Option (List String))
    (ob : Option (List (String × String))) :
    get_data_from_table_query env t cols lim bid sd ed none gb ob =
    get_data_from_table_query env t cols lim bid sd ed (some []) gb ob := rfl

/-- Empty projection fails first, with the ValueError of bigquery_service.py:113. -/
theorem query_empty_projection (env : Env) (t : String) (cols : List String) (lim : Option Int)
    (bid sd ed : Option String) (ag : Option (List AggItem)) (gb : Option (List String))
    (ob : Option (List (String × String)))
    (hc : cols.isEmpty = true) (hag : optListTruthy ag = false) :
    get_data_from_table env t cols lim bid sd ed ag gb ob =
      .error (.valueError msgEmpty) := by
  unfold get_data_from_table get_data_from_table_query
  rw [hc, hag]
  simp

/-- A disallowed table fails with the ValueError of bigquery_service.py:117,
    for every collaborator (no schema fetch is needed to report it). -/
theorem query_not_allowed (env : Env) (t : String) (cols : List String) (lim : Option Int)
    (bid sd ed : Option String) (ag : Option (List AggItem)) (gb : Option (List String))
    (ob : Option (List (String × String)))
    (hproj : (cols.isEmpty && !(optListTruthy ag)) = false)
    (ht : ALLOWED_TABLES.contains t = false) :
    get_data_from_table env t cols lim bid sd ed ag gb ob =
      .error (.valueError (msgNotAllowed t)) := by
  unfold get_data_from_table get_data_from_table_query
  rw [if_neg (by simp [hproj]), eff_ok]
  have ht' : t ∉ ALLOWED_TABLES := by simpa using ht
  simp [ht']

/-- Wrapping of a validation-block failure (bigquery_service.py:141-142). -/
theorem validate_schema_err (env : Env) (t : String) (cols : List String)
    (ag : Option (List AggItem)) (ob : Option (List (String × String))) (e : PyErr)
    (hb : validate_schema_block env t cols ag ob = .error e) :
    validate_schema env t cols ag ob =
      .error (.runtimeError (msgWrapValidation t e.str)) := by
  unfold validate_schema
  rw [hb]

/-- A validation failure propagates out of the query builder unchanged. -/
theorem query_of_validate_err (env : Env) (t : String) (cols : List String) (lim : Option Int)
    (bid sd ed : Option String) (ag : Option (List AggItem)) (gb : Option (List String))
    (ob : Option (List (String × String))) (e : PyErr)
    (hproj : (cols.isEmpty && !(optListTruthy ag)) = false)
    (ht : ALLOWED_TABLES.contains t = true)
    (hv : validate_schema env t cols ag ob = .error e) :
    get_data_from_table_query env t cols lim bid sd ed ag gb ob = .error e := by
  unfold get_data_from_table_query
  rw [if_neg (by simp [hproj]), eff_ok]
  have ht' : t ∈ ALLOWED_TABLES := by simpa using ht
  simp [ht', hv]

/-- A query-building failure propagates out of get_data_from_table unchanged. -/
theorem get_data_err (env : Env) (t : String) (cols : List String) (lim : Option Int)
    (bid sd ed : Option String) (ag : Option (List AggItem)) (gb : Option (List String))
    (ob : Option (List (String × String))) (e : PyErr)
    (hq : get_data_from_table_query env t cols lim bid sd ed ag gb ob = .error e) :
    get_data_from_table env t cols lim bid sd ed ag gb ob = .error e := by
  unfold get_data_from_table
  rw [hq]

/-- Schema fetch failure inside the validation block. -/
theorem validate_block_schema_unavailable (env : Env) (t : String) (cols : List String)
    (ag : Option (List AggItem)) (ob : Option (List (String × String)))
    (ht : ALLOWED_TABLES.contains t = true) (hs : env.schemas t = none) :
    validate_schema_block env t cols ag ob =
      .error (.runtimeError (msgSchemaUnavailable t)) := by
  unfold validate_schema_block get_table_schema
  rw [eff_ok]
  have ht' : t ∈ ALLOWED_TABLES := by simpa using ht
  simp [ht', hs]

/-- A column-check failure decides the validation block. -/
theorem validate_block_columns_err (env : Env) (t : String) (sch : List Column)
    (cols : List String) (ag : Option (List AggItem)) (ob : Option (List (String × String)))
    (e : PyErr) (ht : ALLOWED_TABLES.contains t = true) (hs : env.schemas t = some sch)
    (hcc : checkColumns (sch.map (fun f => f.name)) t cols = .error e) :
    validate_schema_block env t cols ag ob = .error e := by
  unfold validate_schema_block
  rw [get_table_schema_ok env t sch ht hs]
  simp [hcc]

/-- An aggregation-check failure decides the validation block once columns pass. -/
theorem validate_block_agg_err (env : Env) (t : String) (sch : List Column)
    (cols : List String) (ag : Option (List AggItem)) (ob : Option (List (String × String)))
    (e : PyErr) (ht : ALLOWED_TABLES.contains t = true) (hs : env.schemas t = some sch)
    (hcc : checkColumns (sch.map (fun f => f.name)) t cols = .ok ())
    (hagg : checkAggsOpt (sch.map (fun f => f.name)) t ag = .error e) :
    validate_schema_block env t cols ag ob = .error e := by
  unfold validate_schema_block
  rw [get_table_schema_ok env t sch ht hs]
  simp [hcc, hagg]

/-- An order_by-check failure decides the validation block once columns and
    aggregations pass. -/
theorem validate_block_ob_err (env : Env) (t : String) (sch : List Column)
    (cols : List String) (ag : Option (List AggItem)) (ob : Option (List (String × String)))
    (e : PyErr) (ht : ALLOWED_TABLES.contains t = true) (hs : env.schemas t = some sch)
    (hcc : checkColumns (sch.map (fun f => f.name)) t cols = .ok ())
    (hagg : checkAggsOpt (sch.map (fun f => f.name)) t ag = .ok ())
    (hobe : checkOrderBy (sch.map (fun f => f.name)) t ob = .error e) :
    validate_schema_block env t cols ag ob = .error e := by
  unfold validate_schema_block
  rw [get_table_schema_ok env t sch ht hs]
  simp [hcc, hagg, hobe]

/-- The aggregation loop dies immediately on a typed model item. -/
theorem checkAggsOpt_model (names : List String) (t : String) (a : AggregationRequest)
    (rest : List AggItem) :
    checkAggsOpt names t (some (.model a :: rest)) =
      .error (.typeError msgNotSubscriptable) := rfl

/-- The column loop either accepts or raises some ValueError. -/
theorem checkColumns_cases (names : List String) (t : String) (cols : List String) :
    checkColumns names t cols = .ok () ∨
      ∃ m, checkColumns names t cols = .error (.valueError m) := by
  induction cols with
  | nil => left; rfl
  | cons c rest ih =>
    unfold checkColumns
    cases h : names.contains c with
    | true => simpa [h] using ih
    | false => right; exact ⟨msgUnknownColumn c t names, by simp [h]⟩

/-- A nonempty cons-decomposed list is never empty. -/
theorem isEmpty_append_cons {α : Type} (l1 : List α) (a : α) (l2 : List α) :
    (l1 ++ a :: l2).isEmpty = false := by
  cases l1 <;> rfl

/-- A concrete collaborator: table fact_epg has columns a, b, daydate;
    execution always succeeds with no rows. -/
def env0 : Env :=
  { datasetTables := some []
    schemas := fun t => if t = "fact_epg" then
        some [⟨"a", "STRING"⟩, ⟨"b", "INTEGER"⟩, ⟨"daydate", "DATE"⟩] else none
    execute := fun _ => .ok [] }

/-- C9: supplying brand_id, start_date or end_date as the empty string omits the
    corresponding WHERE sub-clause exactly as if the field had not been supplied at all
    (presence is tested by truthiness, not by non-None). -/
theorem c9_empty_string_filters (env : Env) (t : String) (cols : List String)
    (lim : Option Int) (bid sd ed : Option String) (ag : Option (List AggItem))
    (gb : Option (List String)) (ob : Option (List (String × String))) :
    (get_data_from_table_query env t cols lim (some "") sd ed ag gb ob =
       get_data_from_table_query env t cols lim none sd ed ag gb ob) ∧
    (get_data_from_table_query env t cols lim bid (some "") ed ag gb ob =
       get_data_from_table_query env t cols lim bid none ed ag gb ob) ∧
    (get_data_from_table_query env t cols lim bid sd (some "") ag gb ob =
       get_data_from_table_query env t cols lim bid sd none ag gb ob) := by
  have hb : brandClause (some "") = brandClause none := rfl
  have hsd : startClause (some "") = startClause none := rfl
  have hed : endClause (some "") = endClause none := rfl
  refine ⟨?_, ?_, ?_⟩ <;>
    · unfold get_data_from_table_query
      simp only [hb, hsd, hed]

/-- C7: when limit is None the compiled query has no LIMIT segment; when limit is 0
    the compiled query is the same text followed by " LIMIT 0" — the compiler
    distinguishes an unset limit from a zero limit. -/
theorem c7_limit_none_vs_zero (env : Env) (t : String) (sch : List Column)
    (cols : List String) (bid sd ed : Option String) (gb : Option (List String))
    (hproj : cols.isEmpty = false)
    (ht : ALLOWED_TABLES.contains t = true)
    (hs : env.schemas t = some sch)
    (hc : ∀ c ∈ cols, (sch.map (fun f => f.name)).contains c = true) :
    get_data_from_table_query env t cols none bid sd ed none gb none =
      .ok (expectedQuery t cols [] gb bid sd ed none none) ∧
    get_data_from_table_query env t cols (some 0) bid sd ed none gb none =
      .ok (expectedQuery t cols [] gb bid sd ed none none ++ " LIMIT 0") := by
  have ha : ∀ p ∈ ([] : List (String × String)),
      (sch.map (fun f => f.name)).contains p.1 = true := by simp
  have hob : ∀ c d, (none : Option (String × String)) = some (c, d) →
      (sch.map (fun f => f.name)).contains c = true ∧
      ((["ASC", "DESC"] : List String).contains (pyUpper d) = true) := by simp
  have hpr : (cols.isEmpty && ([] : List (String × String)).isEmpty) = false := by
    simp [hproj]
  constructor
  · rw [query_aggs_none]
    exact query_shape env t sch cols [] gb bid sd ed none none hpr ht hs hc ha hob
  · rw [query_aggs_none]
    have h := query_shape env t sch cols [] gb bid sd ed none (some 0) hpr ht hs hc ha hob
    refine h.trans ?_
    have hl : (" LIMIT " ++ toString (0 : Int)) = " LIMIT 0" := by decide
    simp only [expectedQuery, String.append_empty, hl]

/-- C4: the SELECT projection obeys three regimes: with group_by present it is the
    requested columns that occur in group_by followed by one FUNC(col) AS col item per
    aggregation; with group_by absent and aggregations present it is solely the
    aggregation items; with neither it is exactly the requested columns. -/
theorem c4_projection_regimes :
    (∀ (cols : List String) (pairs : List (String × String)) (gbl : List String),
      gbl.isEmpty = false →
      buildSelectParts cols (some (pairs.map mkAggDict)) (some gbl) =
        .ok (cols.filter (fun c => gbl.contains c) ++
             pairs.map (fun p => pyUpper p.2 ++ "(" ++ p.1 ++ ") AS " ++ p.1))) ∧
    (∀ (cols : List String) (pairs : List (String × String)),
      pairs.isEmpty = false →
      buildSelectParts cols (some (pairs.map mkAggDict)) none =
        .ok (pairs.map (fun p => pyUpper p.2 ++ "(" ++ p.1 ++ ") AS " ++ p.1))) ∧
    (∀ cols : List String, buildSelectParts cols none none = .ok cols) := by
  refine ⟨?_, ?_, ?_⟩
  · intro cols pairs gbl hgb
    rw [buildSelectParts_dict]
    simp [optListTruthy, hgb]
  · intro cols pairs hp
    rw [buildSelectParts_dict]
    simp [optListTruthy, hp]
  · intro cols
    simp [buildSelectParts, optListTruthy, renderAggs]

/-- Witness for C4 at the worked example of the claim. -/
theorem c4_witness :
    (buildSelectParts ["a", "b"] (some [mkAggDict ("b", "SUM")]) (some ["a"]) =
      .ok ["a", "SUM(b) AS b"]) ∧
    joinComma ["a", "SUM(b) AS b"] = "a, SUM(b) AS b" := by
  constructor
  · have h := c4_projection_regimes.1 ["a", "b"] [("b", "SUM")] ["a"] (by decide)
    exact h.trans (by rfl)
  · decide

/-- Witness for C7 on a concrete allowed table and schema. -/
theorem c7_witness :
    (get_data_from_table_query env0 "fact_epg" ["a"] none none none none none none none =
      .ok ("SELECT a FROM " ++ bq ++ "services-pro-368012.pro_services_us_dwh.fact_epg"
           ++ bq)) ∧
    (get_data_from_table_query env0 "fact_epg" ["a"] (some 0) none none none none none none =
      .ok ("SELECT a FROM " ++ bq ++ "services-pro-368012.pro_services_us_dwh.fact_epg"
           ++ bq ++ " LIMIT 0")) := by
  have h := c7_limit_none_vs_zero env0 "fact_epg"
      [⟨"a", "STRING"⟩, ⟨"b", "INTEGER"⟩, ⟨"daydate", "DATE"⟩] ["a"] none none none none
      (by decide) (by decide) (by rfl) (by decide)
  exact ⟨h.1.trans (by rfl), h.2.trans (by rfl)⟩

/-- Quote-free text is left unchanged by the doubling map. -/
theorem doubleQuotes_no_quote (l : List Char) (h : squote ∉ l) : doubleQuotes l = l := by
  induction l with
  | nil => rfl
  | cons c cs ih =>
    unfold doubleQuotes
    rw [if_neg (fun hc => h (by rw [← hc]; exact List.mem_cons_self c cs)),
      ih (fun hm => h (List.mem_cons_of_mem c hm))]

/-- The doubling map distributes over append. -/
theorem doubleQuotes_append (l1 l2 : List Char) :
    doubleQuotes (l1 ++ l2) = doubleQuotes l1 ++ doubleQuotes l2 := by
  induction l1 with
  | nil => rfl
  | cons c cs ih =>
    simp only [List.cons_append, doubleQuotes]
    by_cases hc : c = squote
    · simp [hc, ih]
    · simp [hc, ih]

/-- Sanitization doubles an embedded quote and leaves both sides intact. -/
theorem sanitize_append_quote (x y : String) :
    sanitize_brand_id (x ++ sqs ++ y) =
      sanitize_brand_id x ++ sqs ++ sqs ++ sanitize_brand_id y := by
  unfold sanitize_brand_id
  have hdata : (x ++ sqs ++ y).data = x.data ++ [squote] ++ y.data := by
    simp [String.data_append]; rfl
  rw [hdata, doubleQuotes_append, doubleQuotes_append]
  have hq : doubleQuotes [squote] = [squote, squote] := by simp [doubleQuotes]
  rw [hq]
  have hmk : ∀ (l m : List Char), String.mk l ++ String.mk m = String.mk (l ++ m) :=
    fun l m => rfl
  have hsqs : sqs = String.mk [squote] := rfl
  rw [hsqs, hmk, hmk, hmk]
  congr 1
  simp

/-- C6: with brand_id supplied (truthy), the WHERE clause is an equality on the fixed
    field brandid whose literal is the supplied value sanitized by quote-doubling alone:
    quote-free values pass through unchanged and each embedded quote becomes two. -/
theorem c6_brand_filter (env : Env) (t : String) (sch : List Column) (cols : List String)
    (b : String)
    (hproj : cols.isEmpty = false)
    (ht : ALLOWED_TABLES.contains t = true)
    (hs : env.schemas t = some sch)
    (hc : ∀ c ∈ cols, (sch.map (fun f => f.name)).contains c = true)
    (hb : b.isEmpty = false) :
    (get_data_from_table_query env t cols none (some b) none none none none none =
      .ok ("SELECT " ++ joinComma cols ++ " FROM " ++ bq ++ tableRef t ++ bq ++
           " WHERE " ++ joinAnd ["brandid = " ++ sqs ++ sanitize_brand_id b ++ sqs])) ∧
    (∀ s : String, squote ∉ s.data → sanitize_brand_id s = s) ∧
    (∀ x y : String, sanitize_brand_id (x ++ sqs ++ y) =
       sanitize_brand_id x ++ sqs ++ sqs ++ sanitize_brand_id y) := by
  refine ⟨?_, ?_, sanitize_append_quote⟩
  · rw [query_aggs_none]
    have ha : ∀ p ∈ ([] : List (String × String)),
        (sch.map (fun f => f.name)).contains p.1 = true := by simp
    have hob : ∀ c d, (none : Option (String × String)) = some (c, d) →
        (sch.map (fun f => f.name)).contains c = true ∧
        ((["ASC", "DESC"] : List String).contains (pyUpper d) = true) := by simp
    have hpr : (cols.isEmpty && ([] : List (String × String)).isEmpty) = false := by
      simp [hproj]
    have h := query_shape env t sch cols [] none (some b) none none none none hpr ht hs hc
      ha hob
    refine h.trans ?_
    simp [expectedQuery, optListTruthy, strTruthy, hb, brandClause, startClause, endClause,
      String.append_empty, String.append_assoc]
  · intro s hsq
    unfold sanitize_brand_id
    rw [doubleQuotes_no_quote s.data hsq]

/-- Witness for C6 at the worked example of the claim. -/
theorem c6_witness :
    get_data_from_table_query env0 "fact_epg" ["a"] none (some ("O" ++ sqs ++ "Brien"))
        none none none none none =
      .ok ("SELECT a FROM " ++ bq ++ "services-pro-368012.pro_services_us_dwh.fact_epg"
           ++ bq ++ " WHERE brandid = " ++ sqs ++ "O" ++ sqs ++ sqs ++ "Brien" ++ sqs) := by
  have h := (c6_brand_filter env0 "fact_epg"
      [⟨"a", "STRING"⟩, ⟨"b", "INTEGER"⟩, ⟨"daydate", "DATE"⟩] ["a"]
      ("O" ++ sqs ++ "Brien") (by decide) (by decide) (by rfl) (by decide) (by decide)).1
  exact h.trans (by rfl)

/-- C1 counterexample: a group_by column absent from the schema (fact_epg has only
    a, b, daydate) passes validation, the compiled query carries it in GROUP BY, and
    the query is executed — validation does not fail with UnknownColumn. -/
theorem c1_counterexample :
    (get_data_from_table_query env0 "fact_epg" ["a"] (some 5) none none none none
        (some ["zzz"]) none =
      .ok ("SELECT  FROM " ++ bq ++ "services-pro-368012.pro_services_us_dwh.fact_epg"
           ++ bq ++ " GROUP BY zzz LIMIT 5")) ∧
    (get_data_from_table env0 "fact_epg" ["a"] (some 5) none none none none
        (some ["zzz"]) none = .ok []) := ⟨rfl, rfl⟩

/-- C1 amended: group_by column names are never validated — for every list of
    group_by names, known or not, validation succeeds and the compiled query carrying
    them in its GROUP BY clause is handed to execution. -/
theorem c1_amended (env : Env) (t : String) (sch : List Column) (cols : List String)
    (hproj : cols.isEmpty = false)
    (ht : ALLOWED_TABLES.contains t = true)
    (hs : env.schemas t = some sch)
    (hc : ∀ c ∈ cols, (sch.map (fun f => f.name)).contains c = true) :
    ∀ gbs : List String,
      (get_data_from_table_query env t cols none none none none none (some gbs) none =
        .ok (expectedQuery t cols [] (some gbs) none none none none none)) ∧
      (get_data_from_table env t cols none none none none none (some gbs) none =
        match env.execute (expectedQuery t cols [] (some gbs) none none none none none) with
        | .ok rows => .ok rows
        | .error detail => .error (.runtimeError (msgExecFailed t detail))) := by
  intro gbs
  have ha : ∀ p ∈ ([] : List (String × String)),
      (sch.map (fun f => f.name)).contains p.1 = true := by simp
  have hob : ∀ c d, (none : Option (String × String)) = some (c, d) →
      (sch.map (fun f => f.name)).contains c = true ∧
      ((["ASC", "DESC"] : List String).contains (pyUpper d) = true) := by simp
  have hpr : (cols.isEmpty && ([] : List (String × String)).isEmpty) = false := by
    simp [hproj]
  have h1 : get_data_from_table_query env t cols none none none none none (some gbs) none =
      .ok (expectedQuery t cols [] (some gbs) none none none none none) := by
    rw [query_aggs_none]
    exact query_shape env t sch cols [] (some gbs) none none none none none hpr ht hs hc
      ha hob
  refine ⟨h1, ?_⟩
  unfold get_data_from_table
  rw [h1]

/-- Witness for C1 amended: the unknown name zzz flows into the executed GROUP BY. -/
theorem c1_amended_witness :
    (get_data_from_table_query env0 "fact_epg" ["a"] none none none none none
        (some ["zzz"]) none =
      .ok ("SELECT  FROM " ++ bq ++ "services-pro-368012.pro_services_us_dwh.fact_epg"
           ++ bq ++ " GROUP BY zzz")) ∧
    (get_data_from_table env0 "fact_epg" ["a"] none none none none none
        (some ["zzz"]) none = .ok []) := by
  have h := c1_amended env0 "fact_epg"
      [⟨"a", "STRING"⟩, ⟨"b", "INTEGER"⟩, ⟨"daydate", "DATE"⟩] ["a"]
      (by decide) (by decide) (by rfl) (by decide) ["zzz"]
  exact ⟨h.1.trans (by rfl), h.2.trans (by rfl)⟩

/-- C5 counterexample: brand_id supplied as the empty string is a supplied source
    field, yet the compiled query carries no WHERE clause — appearance is governed by
    truthiness, not by being supplied. -/
theorem c5_counterexample :
    get_data_from_table_query env0 "fact_epg" ["a"] none (some "") none none none
        none none =
      .ok ("SELECT a FROM " ++ bq ++ "services-pro-368012.pro_services_us_dwh.fact_epg"
           ++ bq) := rfl

/-- C5 amended: the compiled query is always the fixed concatenation SELECT, FROM,
    then WHERE, GROUP BY, ORDER BY, LIMIT, each optional clause appearing exactly when
    its source field is truthy (filters, group_by) or present (order_by, limit), as
    spelled out by expectedQuery. -/
theorem c5_amended (env : Env) (t : String) (sch : List Column) (cols : List String)
    (pairs : List (String × String)) (gb : Option (List String)) (bid sd ed : Option String)
    (obp : Option (String × String)) (lim : Option Int)
    (hproj : (cols.isEmpty && pairs.isEmpty) = false)
    (ht : ALLOWED_TABLES.contains t = true)
    (hs : env.schemas t = some sch)
    (hc : ∀ c ∈ cols, (sch.map (fun f => f.name)).contains c = true)
    (ha : ∀ p ∈ pairs, (sch.map (fun f => f.name)).contains p.1 = true)
    (hob : ∀ c d, obp = some (c, d) → (sch.map (fun f => f.name)).contains c = true ∧
        ((["ASC", "DESC"] : List String).contains (pyUpper d) = true)) :
    get_data_from_table_query env t cols lim bid sd ed (some (pairs.map mkAggDict)) gb
      (obDict obp) = .ok (expectedQuery t cols pairs gb bid sd ed obp lim) :=
  query_shape env t sch cols pairs gb bid sd ed obp lim hproj ht hs hc ha hob

/-- Witness for C5 amended with every optional clause populated. -/
theorem c5_amended_witness :
    get_data_from_table_query env0 "fact_epg" ["a", "b"] (some 10) (some "x")
        (some "2024-01-01") (some "2024-02-01") (some [mkAggDict ("b", "SUM")])
        (some ["a"]) (obDict (some ("a", "desc"))) =
      .ok ("SELECT a, SUM(b) AS b FROM " ++ bq ++
           "services-pro-368012.pro_services_us_dwh.fact_epg" ++ bq ++
           " WHERE brandid = " ++ sqs ++ "x" ++ sqs ++
           " AND daydate >= " ++ sqs ++ "2024-01-01" ++ sqs ++
           " AND daydate <= " ++ sqs ++ "2024-02-01" ++ sqs ++
           " GROUP BY a ORDER BY a DESC LIMIT 10") := by
  have h := c5_amended env0 "fact_epg"
      [⟨"a", "STRING"⟩, ⟨"b", "INTEGER"⟩, ⟨"daydate", "DATE"⟩] ["a", "b"]
      [("b", "SUM")] (some ["a"]) (some "x") (some "2024-01-01") (some "2024-02-01")
      (some ("a", "desc")) (some 10)
      (by decide) (by decide) (by rfl) (by decide) (by decide)
      (by intro c d h; cases h; exact ⟨by decide, by decide⟩)
  exact h.trans (by rfl)

/-- C3 counterexample: a request with empty columns and empty aggregations against a
    table outside the allow-list fails with the EmptyProjection message, not the
    NotAllowed one — the emptiness check runs before the permission check. -/
theorem c3_counterexample :
    (get_data_from_table env0 "not_in_allow_list" [] none none none none none none none =
      .error (.valueError msgEmpty)) ∧
    msgEmpty ≠ msgNotAllowed "not_in_allow_list" := ⟨rfl, by decide⟩

/-- C3 amended: the checks run in the fixed order emptiness, then table permission,
    then schema fetch, then columns, then aggregation columns, then order_by; the first
    failing check alone determines the reported error. -/
theorem c3_amended :
    (∀ (env : Env) (t : String) (cols : List String) (lim : Option Int)
        (bid sd ed : Option String) (ag : Option (List AggItem)) (gb : Option (List String))
        (ob : Option (List (String × String))),
      cols.isEmpty = true → optListTruthy ag = false →
      get_data_from_table env t cols lim bid sd ed ag gb ob =
        .error (.valueError msgEmpty)) ∧
    (∀ (env : Env) (t : String) (cols : List String) (lim : Option Int)
        (bid sd ed : Option String) (ag : Option (List AggItem)) (gb : Option (List String))
        (ob : Option (List (String × String))),
      (cols.isEmpty && !(optListTruthy ag)) = false →
      ALLOWED_TABLES.contains t = false →
      get_data_from_table env t cols lim bid sd ed ag gb ob =
        .error (.valueError (msgNotAllowed t))) ∧
    (∀ (env : Env) (t : String) (cols : List String) (lim : Option Int)
        (bid sd ed : Option String) (ag : Option (List AggItem)) (gb : Option (List String))
        (ob : Option (List (String × String))),
      (cols.isEmpty && !(optListTruthy ag)) = false →
      ALLOWED_TABLES.contains t = true → env.schemas t = none →
      get_data_from_table env t cols lim bid sd ed ag gb ob =
        .error (.runtimeError (msgWrapValidation t (msgSchemaUnavailable t)))) ∧
    (∀ (env : Env) (t : String) (sch : List Column) (cs1 : List String) (c : String)
        (cs2 : List String) (lim : Option Int) (bid sd ed : Option String)
        (ag : Option (List AggItem)) (gb : Option (List String))
        (ob : Option (List (String × String))),
      ALLOWED_TABLES.contains t = true → env.schemas t = some sch →
      (∀ x ∈ cs1, (sch.map (fun f => f.name)).contains x = true) →
      (sch.map (fun f => f.name)).contains c = false →
      get_data_from_table env t (cs1 ++ c :: cs2) lim bid sd ed ag gb ob =
        .error (.runtimeError (msgWrapValidation t
          (msgUnknownColumn c t (sch.map (fun f => f.name)))))) ∧
    (∀ (env : Env) (t : String) (sch : List Column) (cols : List String) (lim : Option Int)
        (bid sd ed : Option String) (gb : Option (List String))
        (ob : Option (List (String × String))) (c fn : String),
      ALLOWED_TABLES.contains t = true → env.schemas t = some sch →
      (∀ x ∈ cols, (sch.map (fun f => f.name)).contains x = true) →
      (sch.map (fun f => f.name)).contains c = false →
      get_data_from_table env t cols lim bid sd ed (some [mkAggDict (c, fn)]) gb ob =
        .error (.runtimeError (msgWrapValidation t (msgUnknownAggColumn c t)))) := by
  refine ⟨?_, ?_, ?_, ?_, ?_⟩
  · intro env t cols lim bid sd ed ag gb ob hcols hag
    exact query_empty_projection env t cols lim bid sd ed ag gb ob hcols hag
  · intro env t cols lim bid sd ed ag gb ob hproj ht
    exact query_not_allowed env t cols lim bid sd ed ag gb ob hproj ht
  · intro env t cols lim bid sd ed ag gb ob hproj ht hs
    exact get_data_err _ _ _ _ _ _ _ _ _ _ _
      (query_of_validate_err _ _ _ _ _ _ _ _ _ _ _ hproj ht
        (validate_schema_err _ _ _ _ _ _
          (validate_block_schema_unavailable env t cols ag ob ht hs)))
  · intro env t sch cs1 c cs2 lim bid sd ed ag gb ob ht hs h1 h2
    have hproj : ((cs1 ++ c :: cs2).isEmpty && !(optListTruthy ag)) = false := by
      rw [isEmpty_append_cons]
      simp
    have hb := validate_block_columns_err env t sch (cs1 ++ c :: cs2) ag ob
      (.valueError (msgUnknownColumn c t (sch.map (fun f => f.name)))) ht hs
      (checkColumns_err (sch.map (fun f => f.name)) t cs1 c cs2 h1 h2)
    have hv := validate_schema_err env t (cs1 ++ c :: cs2) ag ob _ hb
    exact get_data_err _ _ _ _ _ _ _ _ _ _ _
      (query_of_validate_err _ _ _ _ _ _ _ _ _ _ _ hproj ht hv)
  · intro env t sch cols lim bid sd ed gb ob c fn ht hs hcol hcb
    have hproj : (cols.isEmpty && !(optListTruthy (some [mkAggDict (c, fn)]))) = false := by
      simp [optListTruthy]
    have hagg : checkAggsOpt (sch.map (fun f => f.name)) t (some [mkAggDict (c, fn)]) =
        .error (.valueError (msgUnknownAggColumn c t)) := by
      have hg : aggGetItem (mkAggDict (c, fn)) "column" = .ok c := rfl
      have hstep : checkAggsOpt (sch.map (fun f => f.name)) t (some [mkAggDict (c, fn)]) =
          checkAggs (sch.map (fun f => f.name)) t [mkAggDict (c, fn)] := rfl
      rw [hstep]
      unfold checkAggs
      simp only [hg, hcb]
      simp
    have hb := validate_block_agg_err env t sch cols (some [mkAggDict (c, fn)]) ob
      (.valueError (msgUnknownAggColumn c t)) ht hs (checkColumns_ok _ _ _ hcol) hagg
    have hv := validate_schema_err env t cols (some [mkAggDict (c, fn)]) ob _ hb
    exact get_data_err _ _ _ _ _ _ _ _ _ _ _
      (query_of_validate_err _ _ _ _ _ _ _ _ _ _ _ hproj ht hv)

/-- Witness for C3 amended: one concrete instance per stage of the order. -/
theorem c3_amended_witness :
    (get_data_from_table env0 "nope" [] none none none none none none none =
      .error (.valueError msgEmpty)) ∧
    (get_data_from_table env0 "nope" ["a"] none none none none none none none =
      .error (.valueError (msgNotAllowed "nope"))) ∧
    (get_data_from_table env0 "fact_userinfo" ["a"] none none none none none none none =
      .error (.runtimeError
        (msgWrapValidation "fact_userinfo" (msgSchemaUnavailable "fact_userinfo")))) ∧
    (get_data_from_table env0 "fact_epg" ["a", "zzz"] none none none none
        (some [mkAggDict ("qqq", "SUM")]) none (some [("column", "zzz")]) =
      .error (.runtimeError
        (msgWrapValidation "fact_epg" (msgUnknownColumn "zzz" "fact_epg"
          ["a", "b", "daydate"])))) ∧
    (get_data_from_table env0 "fact_epg" ["a"] none none none none
        (some [mkAggDict ("qqq", "SUM")]) none (some [("column", "zzz")]) =
      .error (.runtimeError
        (msgWrapValidation "fact_epg" (msgUnknownAggColumn "qqq" "fact_epg")))) := by
  refine ⟨?_, ?_, ?_, ?_, ?_⟩
  · exact c3_amended.1 env0 "nope" [] none none none none none none none (by decide)
      (by decide)
  · exact c3_amended.2.1 env0 "nope" ["a"] none none none none none none none (by decide)
      (by decide)
  · exact c3_amended.2.2.1 env0 "fact_userinfo" ["a"] none none none none none none none
      (by decide) (by decide) (by rfl)
  · have h := c3_amended.2.2.2.1 env0 "fact_epg"
      [⟨"a", "STRING"⟩, ⟨"b", "INTEGER"⟩, ⟨"daydate", "DATE"⟩] ["a"] "zzz" [] none
      none none none (some [mkAggDict ("qqq", "SUM")]) none (some [("column", "zzz")])
      (by decide) (by rfl) (by decide) (by decide)
    exact h.trans (by rfl)
  · have h := c3_amended.2.2.2.2 env0 "fact_epg"
      [⟨"a", "STRING"⟩, ⟨"b", "INTEGER"⟩, ⟨"daydate", "DATE"⟩] ["a"] none
      none none none none (some [("column", "zzz")]) "qqq" "SUM"
      (by decide) (by rfl) (by decide) (by decide)
    exact h.trans (by rfl)

/-- A service-layer ValueError surfaces as HTTP 400 (main.py:112-113). -/
theorem handler_400 (env : Env) (r : TableDataQueryRequest) (m : String)
    (h : get_data_from_table env r.table_name r.columns r.limit r.brand_id r.start_date
        r.end_date (r.aggregations.map (fun l => l.map AggItem.model)) r.group_by none =
      .error (.valueError m)) :
    query_bigquery_table_data env r = .failure 400 m := by
  unfold query_bigquery_table_data
  rw [h]

/-- A service-layer RuntimeError surfaces as HTTP 500 (main.py:117-118). -/
theorem handler_500 (env : Env) (r : TableDataQueryRequest) (m : String)
    (h : get_data_from_table env r.table_name r.columns r.limit r.brand_id r.start_date
        r.end_date (r.aggregations.map (fun l => l.map AggItem.model)) r.group_by none =
      .error (.runtimeError m)) :
    query_bigquery_table_data env r = .failure 500 m := by
  unfold query_bigquery_table_data
  rw [h]

/-- Wrapping dict items into typed models preserves truthiness. -/
theorem optListTruthy_map_model (o : Option (List AggregationRequest)) :
    optListTruthy (o.map (fun l => l.map AggItem.model)) = optListTruthy o := by
  cases o with
  | none => rfl
  | some l => cases l <;> rfl

/-- C2 counterexample: a request that fails validation with UnknownColumn is surfaced
    to the HTTP client as a 500, not a 400 — the ValueError is swallowed by the
    schema-validation try/except and re-raised as RuntimeError. -/
theorem c2_counterexample :
    query_bigquery_table_data env0 { table_name := "fact_epg", columns := ["nope"] } =
      .failure 500 (msgWrapValidation "fact_epg"
        (msgUnknownColumn "nope" "fact_epg" ["a", "b", "daydate"])) := rfl

/-- C2 amended: EmptyProjection and NotAllowed are raised before the validation
    try/except and surface as 400 with a message naming the offending value;
    UnknownColumn and MalformedOrderBy are raised inside it, wrapped into RuntimeError,
    and surface as 500 (order_by errors arise only at the service layer, since the
    HTTP model never forwards order_by). -/
theorem c2_amended :
    (∀ (env : Env) (r : TableDataQueryRequest),
      r.columns.isEmpty = true → optListTruthy r.aggregations = false →
      query_bigquery_table_data env r = .failure 400 msgEmpty) ∧
    (∀ (env : Env) (r : TableDataQueryRequest),
      (r.columns.isEmpty && !(optListTruthy r.aggregations)) = false →
      ALLOWED_TABLES.contains r.table_name = false →
      query_bigquery_table_data env r = .failure 400 (msgNotAllowed r.table_name)) ∧
    (∀ (env : Env) (r : TableDataQueryRequest) (sch : List Column) (cs1 : List String)
        (c : String) (cs2 : List String),
      ALLOWED_TABLES.contains r.table_name = true →
      env.schemas r.table_name = some sch →
      r.columns = cs1 ++ c :: cs2 →
      (∀ x ∈ cs1, (sch.map (fun f => f.name)).contains x = true) →
      (sch.map (fun f => f.name)).contains c = false →
      query_bigquery_table_data env r = .failure 500
        (msgWrapValidation r.table_name
          (msgUnknownColumn c r.table_name (sch.map (fun f => f.name))))) ∧
    (∀ (env : Env) (t : String) (sch : List Column) (cols : List String) (c : String),
      ALLOWED_TABLES.contains t = true → env.schemas t = some sch →
      cols.isEmpty = false →
      (∀ x ∈ cols, (sch.map (fun f => f.name)).contains x = true) →
      get_data_from_table env t cols none none none none none none
          (some [("column", c)]) =
        .error (.runtimeError (msgWrapValidation t msgOrderByKeys))) ∧
    (∀ (env : Env) (t : String) (sch : List Column) (cols : List String) (c d : String),
      ALLOWED_TABLES.contains t = true → env.schemas t = some sch →
      cols.isEmpty = false →
      (∀ x ∈ cols, (sch.map (fun f => f.name)).contains x = true) →
      (sch.map (fun f => f.name)).contains c = true →
      (["ASC", "DESC"] : List String).contains (pyUpper d) = false →
      get_data_from_table env t cols none none none none none none
          (obDict (some (c, d))) =
        .error (.runtimeError (msgWrapValidation t msgBadDirection))) := by
  refine ⟨?_, ?_, ?_, ?_, ?_⟩
  · intro env r h1 h2
    apply handler_400
    apply query_empty_projection _ _ _ _ _ _ _ _ _ _ h1
    rw [optListTruthy_map_model]
    exact h2
  · intro env r hproj ht
    apply handler_400
    apply query_not_allowed _ _ _ _ _ _ _ _ _ _ _ ht
    rw [optListTruthy_map_model]
    exact hproj
  · intro env r sch cs1 c cs2 ht hs hcols h1 h2
    apply handler_500
    rw [hcols]
    have hproj : ((cs1 ++ c :: cs2).isEmpty &&
        !(optListTruthy (r.aggregations.map (fun l => l.map AggItem.model)))) = false := by
      rw [isEmpty_append_cons]
      simp
    have hb := validate_block_columns_err env r.table_name sch (cs1 ++ c :: cs2)
      (r.aggregations.map (fun l => l.map AggItem.model)) none
      (.valueError (msgUnknownColumn c r.table_name (sch.map (fun f => f.name)))) ht hs
      (checkColumns_err (sch.map (fun f => f.name)) r.table_name cs1 c cs2 h1 h2)
    have hv := validate_schema_err env r.table_name (cs1 ++ c :: cs2)
      (r.aggregations.map (fun l => l.map AggItem.model)) none _ hb
    exact get_data_err _ _ _ _ _ _ _ _ _ _ _
      (query_of_validate_err _ _ _ _ _ _ _ _ _ _ _ hproj ht hv)
  · intro env t sch cols c ht hs hcols hcol
    have hproj : (cols.isEmpty && !(optListTruthy (none : Option (List AggItem)))) =
        false := by simp [hcols]
    have hobe : checkOrderBy (sch.map (fun f => f.name)) t (some [("column", c)]) =
        .error (.valueError msgOrderByKeys) := rfl
    have hb := validate_block_ob_err env t sch cols none (some [("column", c)])
      (.valueError msgOrderByKeys) ht hs (checkColumns_ok _ _ _ hcol) rfl hobe
    have hv := validate_schema_err env t cols none (some [("column", c)]) _ hb
    exact get_data_err _ _ _ _ _ _ _ _ _ _ _
      (query_of_validate_err _ _ _ _ _ _ _ _ _ _ _ hproj ht hv)
  · intro env t sch cols c d ht hs hcols hcol hcv hd
    have hproj : (cols.isEmpty && !(optListTruthy (none : Option (List AggItem)))) =
        false := by simp [hcols]
    have hobe : checkOrderBy (sch.map (fun f => f.name)) t (obDict (some (c, d))) =
        .error (.valueError msgBadDirection) := by
      have hl1 : ([("column", c), ("direction", d)] : List (String × String)).lookup
          "column" = some c := rfl
      have hl2 : ([("column", c), ("direction", d)] : List (String × String)).lookup
          "direction" = some d := rfl
      unfold checkOrderBy obDict
      simp only [optListTruthy, List.isEmpty_cons, Bool.not_false, if_pos, hl1, hl2,
        hcv, hd]
      simp
    have hb := validate_block_ob_err env t sch cols none (obDict (some (c, d)))
      (.valueError msgBadDirection) ht hs (checkColumns_ok _ _ _ hcol) rfl hobe
    have hv := validate_schema_err env t cols none (obDict (some (c, d))) _ hb
    exact get_data_err _ _ _ _ _ _ _ _ _ _ _
      (query_of_validate_err _ _ _ _ _ _ _ _ _ _ _ hproj ht hv)

/-- Witness for C2 amended: one concrete instance per error kind. -/
theorem c2_amended_witness :
    (query_bigquery_table_data env0 { table_name := "nope", columns := [] } =
      .failure 400 msgEmpty) ∧
    (query_bigquery_table_data env0 { table_name := "nope", columns := ["a"] } =
      .failure 400 (msgNotAllowed "nope")) ∧
    (query_bigquery_table_data env0 { table_name := "fact_epg", columns := ["zzz"] } =
      .failure 500 (msgWrapValidation "fact_epg"
        (msgUnknownColumn "zzz" "fact_epg" ["a", "b", "daydate"]))) ∧
    (get_data_from_table env0 "fact_epg" ["a"] none none none none none none
        (some [("column", "a")]) =
      .error (.runtimeError (msgWrapValidation "fact_epg" msgOrderByKeys))) ∧
    (get_data_from_table env0 "fact_epg" ["a"] none none none none none none
        (obDict (some ("a", "up"))) =
      .error (.runtimeError (msgWrapValidation "fact_epg" msgBadDirection))) := by
  refine ⟨?_, ?_, ?_, ?_, ?_⟩
  · exact c2_amended.1 env0 { table_name := "nope", columns := [] } (by decide) (by decide)
  · exact c2_amended.2.1 env0 { table_name := "nope", columns := ["a"] } (by decide)
      (by decide)
  · have h := c2_amended.2.2.1 env0 { table_name := "fact_epg", columns := ["zzz"] }
      [⟨"a", "STRING"⟩, ⟨"b", "INTEGER"⟩, ⟨"daydate", "DATE"⟩] [] "zzz" []
      (by decide) (by rfl) (by rfl) (by decide) (by decide)
    exact h.trans (by rfl)
  · exact c2_amended.2.2.2.1 env0 "fact_epg"
      [⟨"a", "STRING"⟩, ⟨"b", "INTEGER"⟩, ⟨"daydate", "DATE"⟩] ["a"] "a"
      (by decide) (by rfl) (by decide) (by decide)
  · exact c2_amended.2.2.2.2 env0 "fact_epg"
      [⟨"a", "STRING"⟩, ⟨"b", "INTEGER"⟩, ⟨"daydate", "DATE"⟩] ["a"] "a" "up"
      (by decide) (by rfl) (by decide) (by decide) (by decide) (by decide)

/-- A fixed concrete HTTP request for the query-data endpoint. -/
def rq0 : TableDataQueryRequest := { table_name := "fact_epg", columns := ["a"] }

/-- C8 counterexample: the HTTP handler compiles the request with no ORDER BY clause
    (its request model has no order_by field and it forwards none), while the same
    service call with an order_by dict supplied does produce one. -/
theorem c8_counterexample :
    (handler_query env0 rq0 =
      .ok ("SELECT a FROM " ++ bq ++ "services-pro-368012.pro_services_us_dwh.fact_epg"
           ++ bq)) ∧
    (get_data_from_table_query env0 "fact_epg" ["a"] none none none none none none
        (obDict (some ("a", "asc"))) =
      .ok ("SELECT a FROM " ++ bq ++ "services-pro-368012.pro_services_us_dwh.fact_epg"
           ++ bq ++ " ORDER BY a ASC")) := ⟨rfl, rfl⟩

/-- C8 amended: the HTTP endpoint always calls the service with order_by = None (the
    request model has no order_by field), so HTTP-compiled queries never carry ORDER BY;
    the service-level function does accept an optional order_by and, when supplied and
    valid, appends ORDER BY column DIRECTION with the upper-cased direction. -/
theorem c8_amended :
    (∀ (env : Env) (r : TableDataQueryRequest),
      handler_query env r = get_data_from_table_query env r.table_name r.columns r.limit
        r.brand_id r.start_date r.end_date
        (r.aggregations.map (fun l => l.map AggItem.model)) r.group_by none) ∧
    (∀ (env : Env) (t : String) (sch : List Column) (cols : List String) (c d : String),
      cols.isEmpty = false →
      ALLOWED_TABLES.contains t = true → env.schemas t = some sch →
      (∀ x ∈ cols, (sch.map (fun f => f.name)).contains x = true) →
      (sch.map (fun f => f.name)).contains c = true →
      (["ASC", "DESC"] : List String).contains (pyUpper d) = true →
      get_data_from_table_query env t cols none none none none none none
          (obDict (some (c, d))) =
        .ok ("SELECT " ++ joinComma cols ++ " FROM " ++ bq ++ tableRef t ++ bq ++
             " ORDER BY " ++ c ++ " " ++ pyUpper d)) := by
  constructor
  · intro env r
    rfl
  · intro env t sch cols c d hproj ht hs hcol hcv hdv
    rw [query_aggs_none]
    have h := query_shape env t sch cols [] none none none none (some (c, d)) none
      (by simp [hproj]) ht hs hcol (by simp)
      (by intro x y hxy; cases hxy; exact ⟨hcv, hdv⟩)
    refine h.trans ?_
    simp [expectedQuery, optListTruthy, strTruthy, String.append_empty,
      String.append_assoc]

/-- Witness for C8 amended. -/
theorem c8_amended_witness :
    (handler_query env0 rq0 =
      get_data_from_table_query env0 "fact_epg" ["a"] none none none none none
        none none) ∧
    (get_data_from_table_query env0 "fact_epg" ["a"] none none none none none none
        (obDict (some ("b", "desc"))) =
      .ok ("SELECT a FROM " ++ bq ++ "services-pro-368012.pro_services_us_dwh.fact_epg"
           ++ bq ++ " ORDER BY b DESC")) := by
  constructor
  · exact c8_amended.1 env0 rq0
  · have h := c8_amended.2 env0 "fact_epg"
      [⟨"a", "STRING"⟩, ⟨"b", "INTEGER"⟩, ⟨"daydate", "DATE"⟩] ["a"] "b" "desc"
      (by decide) (by decide) (by rfl) (by decide) (by decide) (by decide)
    exact h.trans (by rfl)

/-- NotAllowed at the query-builder level, for any collaborator. -/
theorem query_not_allowed_q (env : Env) (t : String) (cols : List String) (lim : Option Int)
    (bid sd ed : Option String) (ag : Option (List AggItem)) (gb : Option (List String))
    (ob : Option (List (String × String)))
    (hproj : (cols.isEmpty && !(optListTruthy ag)) = false)
    (ht : ALLOWED_TABLES.contains t = false) :
    get_data_from_table_query env t cols lim bid sd ed ag gb ob =
      .error (.valueError (msgNotAllowed t)) := by
  unfold get_data_from_table_query
  rw [if_neg (by simp [hproj]), eff_ok]
  have ht' : t ∉ ALLOWED_TABLES := by simpa using ht
  simp [ht']

/-- The compiled query text never depends on the execution collaborator. -/
theorem query_execute_irrelevant (env : Env) (f : String → Except String (List Row))
    (t : String) (cols : List String) (lim : Option Int) (bid sd ed : Option String)
    (ag : Option (List AggItem)) (gb : Option (List String))
    (ob : Option (List (String × String))) :
    get_data_from_table_query { env with execute := f } t cols lim bid sd ed ag gb ob =
    get_data_from_table_query env t cols lim bid sd ed ag gb ob := rfl

/-- With a typed model at the head of the aggregation list and an allowed table,
    the query builder always fails with some RuntimeError. -/
theorem query_model_aggs_err (env : Env) (t : String) (cols : List String)
    (lim : Option Int) (bid sd ed : Option String) (a : AggregationRequest)
    (rest : List AggItem) (gb : Option (List String)) (ob : Option (List (String × String)))
    (ht : ALLOWED_TABLES.contains t = true) :
    ∃ m, get_data_from_table_query env t cols lim bid sd ed
        (some (AggItem.model a :: rest)) gb ob = .error (.runtimeError m) := by
  have hproj : (cols.isEmpty && !(optListTruthy (some (AggItem.model a :: rest)))) =
      false := by simp [optListTruthy]
  cases hs : env.schemas t with
  | none =>
    exact ⟨msgWrapValidation t (msgSchemaUnavailable t),
      query_of_validate_err _ _ _ _ _ _ _ _ _ _ _ hproj ht
        (validate_schema_err _ _ _ _ _ _
          (validate_block_schema_unavailable env t cols _ ob ht hs))⟩
  | some sch =>
    rcases checkColumns_cases (sch.map (fun f => f.name)) t cols with hok | ⟨m, herr⟩
    · have hb := validate_block_agg_err env t sch cols (some (.model a :: rest)) ob
        (.typeError msgNotSubscriptable) ht hs hok (checkAggsOpt_model _ _ _ _)
      exact ⟨msgWrapValidation t msgNotSubscriptable,
        query_of_validate_err _ _ _ _ _ _ _ _ _ _ _ hproj ht
          (validate_schema_err _ _ _ _ _ _ hb)⟩
    · have hb := validate_block_columns_err env t sch cols (some (.model a :: rest)) ob
        (.valueError m) ht hs herr
      exact ⟨msgWrapValidation t m,
        query_of_validate_err _ _ _ _ _ _ _ _ _ _ _ hproj ht
          (validate_schema_err _ _ _ _ _ _ hb)⟩

/-- C10 counterexample: a request with non-empty aggregations against a disallowed
    table surfaces as 400 (NotAllowed), not as a 500-equivalent error. -/
theorem c10_counterexample :
    query_bigquery_table_data env0
      { table_name := "nope", columns := ["a"], aggregations := some [⟨"x", "SUM"⟩] } =
      .failure 400 (msgNotAllowed "nope") := rfl

/-- C10 amended: every query-data request with non-empty aggregations fails before any
    query is executed — as 500 when the table is allowed (the service subscripts the
    typed AggregationRequest objects, raising inside the wrapped validation), and as
    400 (NotAllowed) when it is not; the outcome never depends on the execution
    collaborator. -/
theorem c10_amended :
    (∀ (env : Env) (r : TableDataQueryRequest) (al : List AggregationRequest),
      r.aggregations = some al → al.isEmpty = false →
      ALLOWED_TABLES.contains r.table_name = true →
      ∃ m, query_bigquery_table_data env r = .failure 500 m) ∧
    (∀ (env : Env) (r : TableDataQueryRequest) (al : List AggregationRequest),
      r.aggregations = some al → al.isEmpty = false →
      ALLOWED_TABLES.contains r.table_name = false →
      query_bigquery_table_data env r = .failure 400 (msgNotAllowed r.table_name)) ∧
    (∀ (env : Env) (f : String → Except String (List Row)) (r : TableDataQueryRequest)
        (al : List AggregationRequest),
      r.aggregations = some al → al.isEmpty = false →
      query_bigquery_table_data { env with execute := f } r =
        query_bigquery_table_data env r) := by
  refine ⟨?_, ?_, ?_⟩
  · intro env r al hag hal ht
    cases al with
    | nil => simp at hal
    | cons a rest =>
      have hmap : r.aggregations.map (fun l => l.map AggItem.model) =
          some (AggItem.model a :: rest.map AggItem.model) := by rw [hag]; rfl
      obtain ⟨m, hm⟩ := query_model_aggs_err env r.table_name r.columns r.limit
        r.brand_id r.start_date r.end_date a (rest.map AggItem.model) r.group_by none ht
      refine ⟨m, handler_500 env r m ?_⟩
      apply get_data_err
      rw [hmap]
      exact hm
  · intro env r al hag hal ht
    have hproj : (r.columns.isEmpty &&
        !(optListTruthy (r.aggregations.map (fun l => l.map AggItem.model)))) = false := by
      rw [optListTruthy_map_model, hag]
      simp [optListTruthy, hal]
    exact handler_400 env r _ (query_not_allowed _ _ _ _ _ _ _ _ _ _ hproj ht)
  · intro env f r al hag hal
    cases al with
    | nil => simp at hal
    | cons a rest =>
      have hmap : r.aggregations.map (fun l => l.map AggItem.model) =
          some (AggItem.model a :: rest.map AggItem.model) := by rw [hag]; rfl
      have hproj : (r.columns.isEmpty &&
          !(optListTruthy (r.aggregations.map (fun l => l.map AggItem.model)))) =
          false := by
        rw [hmap]
        simp [optListTruthy]
      obtain ⟨e, he⟩ : ∃ e, get_data_from_table_query env r.table_name r.columns r.limit
          r.brand_id r.start_date r.end_date
          (r.aggregations.map (fun l => l.map AggItem.model)) r.group_by none =
          .error e := by
        cases hct : ALLOWED_TABLES.contains r.table_name with
        | true =>
          obtain ⟨m, hm⟩ := query_model_aggs_err env r.table_name r.columns r.limit
            r.brand_id r.start_date r.end_date a (rest.map AggItem.model) r.group_by
            none hct
          exact ⟨_, by rw [hmap]; exact hm⟩
        | false =>
          exact ⟨_, query_not_allowed_q _ _ _ _ _ _ _ _ _ _ hproj hct⟩
      unfold query_bigquery_table_data get_data_from_table
      rw [query_execute_irrelevant, he]

/-- Witness for C10 amended at concrete requests. -/
theorem c10_amended_witness :
    (∃ m, query_bigquery_table_data env0
        { table_name := "fact_epg", columns := ["a"],
          aggregations := some [⟨"b", "SUM"⟩] } = .failure 500 m) ∧
    (query_bigquery_table_data env0
        { table_name := "nope", columns := ["a"],
          aggregations := some [⟨"b", "SUM"⟩] } =
      .failure 400 (msgNotAllowed "nope")) ∧
    (query_bigquery_table_data { env0 with execute := fun _ => .error "boom" }
        { table_name := "fact_epg", columns := ["a"],
          aggregations := some [⟨"b", "SUM"⟩] } =
      query_bigquery_table_data env0
        { table_name := "fact_epg", columns := ["a"],
          aggregations := some [⟨"b", "SUM"⟩] }) := by
  refine ⟨?_, ?_, ?_⟩
  · exact c10_amended.1 env0
      { table_name := "fact_epg", columns := ["a"], aggregations := some [⟨"b", "SUM"⟩] }
      [⟨"b", "SUM"⟩] rfl (by decide) (by decide)
  · exact c10_amended.2.1 env0
      { table_name := "nope", columns := ["a"], aggregations := some [⟨"b", "SUM"⟩] }
      [⟨"b", "SUM"⟩] rfl (by decide) (by decide)
  · exact c10_amended.2.2 env0 (fun _ => .error "boom")
      { table_name := "fact_epg", columns := ["a"], aggregations := some [⟨"b", "SUM"⟩] }
      [⟨"b", "SUM"⟩] rfl (by decide)
